import Mathlib

/-!
Verification development for the Farm-Advisor multi-agent dispatch system.

The definitions below are a shallow embedding of the Python source:
  - src/src/graph/multi_agent_graph.py  (dispatch loop, supervisor, specialist nodes)
  - src/src/database/repository.py      (farm persistence)
  - src/src/agents/data_extraction_agent.py (save_extracted_data)
  - src/app.py and src/src/config/model_config.py (fallback mode)

External effects are embedded explicitly:
  - a backend (LLM) call is a parameter of type `Except String String`:
    `Except.ok content` is a successful generation, `Except.error e` models a
    raised exception whose text is `e` (timeouts, connection errors, the
    `TypeError` from calling `create_supervisor_agent()` without arguments, ...);
  - `json.loads` is a parameter `parse : String → Option (List (String × String))`
    (`none` models a parse exception, `some d` a successfully decoded object);
  - the LangGraph `InMemoryStore` is an explicit association-list store.
-/

namespace FarmAdvisor

/-- Result of one backend (Ollama/agent) invocation: generated text or a raised
exception carrying its message. -/
abbrev BackendResult := Except String String

/-- Abstract stand-in for `json.loads` restricted to flat string objects:
`none` models a raised `JSONDecodeError`, `some d` the decoded dict. -/
abbrev JsonParser := String → Option (List (String × String))

/-- A LangChain message: `type` is the message class tag
("human" for `HumanMessage`, "ai" for `AIMessage`, "system" for `SystemMessage`),
as read by `last_message.type` in `create_supervisor_node`. -/
structure Message where
  type : String
  content : String
deriving DecidableEq, Repr

/-- `AIMessage(content=c)`. -/
def mkAI (c : String) : Message := { type := "ai", content := c }

/-- `HumanMessage(content=c)`. -/
def mkHuman (c : String) : Message := { type := "human", content := c }

/-- The `FarmAdvisorState` TypedDict of multi_agent_graph.py.
`extracted_data` and `planning_data` are JSON objects, embedded as association
lists; `messages` is the LangGraph message channel (net effect of the
`add_messages` reducer on the values the nodes return). -/
structure FarmAdvisorState where
  messages : List Message
  extracted_data : List (String × String)
  planning_data : List (String × String)
  recommendations : List String
  active_agent : String
  session_id : String
  iteration_count : Nat
deriving DecidableEq, Repr

/- ---------------- Python string primitives used by the nodes ---------------- -/

/-- The character `\x7b` (opening curly brace). -/
def lbrace : Char := Char.ofNat 123

/-- The character `\x7d` (closing curly brace). -/
def rbrace : Char := Char.ofNat 125

/-- Does `sub` match at the head of `s`? (helper for Python `in`). -/
def matchesAt : List Char → List Char → Bool
  | [], _ => true
  | _ :: _, [] => false
  | a :: as, b :: bs => a == b && matchesAt as bs

/-- Does `sub` occur contiguously anywhere in `s`? -/
def occursInList (sub : List Char) : List Char → Bool
  | [] => sub.isEmpty
  | c :: t => matchesAt sub (c :: t) || occursInList sub t

/-- Python `sub in s` on strings. -/
def pyIn (sub s : String) : Bool := occursInList sub.toList s.toList

/-- Python `s.lower()` (ASCII case folding, as performed by `Char.toLower`);
implemented over the character list so that it evaluates inside the kernel. -/
def pyLower (s : String) : String := String.mk (s.toList.map Char.toLower)

/-- Python `s.find(c)`: index of the first occurrence of `c`, or `-1`. -/
def pyFindAux (c : Char) : List Char → Nat → Int
  | [], _ => -1
  | a :: as, i => if a == c then (i : Int) else pyFindAux c as (i + 1)

/-- Python `s.find(c)`. -/
def pyFind (s : String) (c : Char) : Int := pyFindAux c s.toList 0

/-- Python `s.rfind(c)`: index of the last occurrence of `c`, or `-1`. -/
def pyRFindAux (c : Char) : List Char → Nat → Int → Int
  | [], _, acc => acc
  | a :: as, i, acc => pyRFindAux c as (i + 1) (if a == c then (i : Int) else acc)

/-- Python `s.rfind(c)`. -/
def pyRFind (s : String) (c : Char) : Int := pyRFindAux c s.toList 0 (-1)

/-- Python `s[a:b]` for `0 ≤ a ≤ b`. -/
def pySlice (s : String) (a b : Nat) : String := String.mk ((s.toList.drop a).take (b - a))

/-- Python `s[:n]`. -/
def pySliceTo (s : String) (n : Nat) : String := String.mk (s.toList.take n)

/-- Python `s[n:]`. -/
def pySliceFrom (s : String) (n : Nat) : String := String.mk (s.toList.drop n)

/- ---------------- Supervisor node (intent classifier) ---------------- -/

/-- The `agent_mapping` dict of `create_supervisor_node`
(multi_agent_graph.py lines 100-106), in Python dict insertion order. -/
def agent_mapping : List (String × String) :=
  [("conversational", "conversational_agent"),
   ("data_extraction", "data_extraction_agent"),
   ("planning", "planning_agent"),
   ("recommendation", "recommendation_agent"),
   ("respond_directly", "supervisor_response")]

/-- The label-matching loop of `create_supervisor_node` (lines 108-115):
`selected_agent` starts as "conversational_agent" and the first key whose
lower-cased text occurs in the lower-cased response wins (`break`). -/
def select_loop (content : String) : List (String × String) → String
  | [] => "conversational_agent"
  | (k, v) :: rest =>
      if pyIn (pyLower k) (pyLower content) then v else select_loop content rest

/-- Route selection from the free-text classifier answer. -/
def select_agent (content : String) : String := select_loop content agent_mapping

/-- Apology appended by the supervisor when the iteration ceiling is exceeded
(multi_agent_graph.py line 62). -/
def supervisor_overload_msg : String :=
  "I apologize, but I\x27m having trouble processing your request efficiently. Could you please rephrase or provide more specific details?"

/-- Apology appended by the supervisor when the classifier call raises
(multi_agent_graph.py line 124). -/
def supervisor_error_msg : String :=
  "I\x27m sorry, I encountered an error while processing your request. Please try again."

/-- Is the last message of the history a human message?
(`last_message.type == "human"` in the source; the `role == "user"` branch is
for plain-dict messages, which never reach this node in the compiled graph.) -/
def lastIsHuman (msgs : List Message) : Bool :=
  match msgs.getLast? with
  | some m => m.type == "human"
  | none => false

/-- `create_supervisor_node` (multi_agent_graph.py lines 50-127).
`backend` is the outcome of `create_supervisor_agent()` + `supervisor.invoke`. -/
def create_supervisor_node (backend : BackendResult) (state : FarmAdvisorState) :
    FarmAdvisorState :=
  let count := state.iteration_count + 1
  if count > 10 then
    { state with
      messages := state.messages ++ [mkAI supervisor_overload_msg],
      active_agent := "human",
      iteration_count := count }
  else
    match state.messages.getLast? with
    | none => { state with active_agent := "human", iteration_count := count }
    | some last =>
      if last.type == "human" then
        match backend with
        | Except.ok content =>
            { state with active_agent := select_agent content, iteration_count := count }
        | Except.error _ =>
            { state with
              messages := state.messages ++ [mkAI supervisor_error_msg],
              active_agent := "human",
              iteration_count := count }
      else { state with active_agent := "human", iteration_count := count }

/- ---------------- C3: claimed classifier contract (from the spec words) ---------------- -/

/-- Modelled from the spec claim (not the source): the claimed label vocabulary
"conversational, data_extraction, recommendation, planning, direct_response",
in the order the claim lists it, each label mapped to its role state. -/
def claim_vocabulary : List (String × String) :=
  [("conversational", "conversational_agent"),
   ("data_extraction", "data_extraction_agent"),
   ("recommendation", "recommendation_agent"),
   ("planning", "planning_agent"),
   ("direct_response", "supervisor_response")]

/-- Modelled from the spec claim (not the source): case-insensitive substring
matching of each claimed label against the answer, first match wins, default
conversational. To be compared against `select_agent`. -/
def claim_select (content : String) : String :=
  match claim_vocabulary.find? (fun p => pyIn (pyLower p.1) (pyLower content)) with
  | some p => p.2
  | none => "conversational_agent"

/-- First-match formulation of the code's actual matching loop, used to state
the amended claim. -/
def amended_select (content : String) : String :=
  match agent_mapping.find? (fun p => pyIn (pyLower p.1) (pyLower content)) with
  | some p => p.2
  | none => "conversational_agent"

/- ---------------- Specialist nodes ---------------- -/

/-- Apology of the conversational node's except branch (line 151). -/
def conversational_error_msg : String :=
  "I\x27m sorry, I encountered an error while processing your request as a conversational agent."

/-- Apology of the data-extraction node's except branch (line 195). -/
def data_extraction_error_msg : String :=
  "I\x27m sorry, I encountered an error while extracting data from your request."

/-- Apology of the planning node's except branch (line 247). -/
def planning_error_msg : String :=
  "I\x27m sorry, I encountered an error while creating a plan based on your request."

/-- Apology of the recommendation node's except branch (line 292). -/
def recommendation_error_msg : String :=
  "I\x27m sorry, I encountered an error while generating recommendations for your request."

/-- Apology of the supervisor_response node's except branch (line 318). -/
def supervisor_response_error_msg : String :=
  "I\x27m sorry, I encountered an error while processing your request directly."

/-- Generic acknowledgment of the data-extraction node (line 182). -/
def data_extraction_ack : String :=
  "I\x27ve analyzed your information and extracted the key details."

/-- Suffix appended when structured data was extracted (line 184). -/
def data_extraction_ack_more : String :=
  " Here\x27s what I understood from your input."

/-- Fallback text of the planning node when stripping the JSON leaves nothing
(line 231). -/
def planning_default_msg : String :=
  "I\x27ve created a planning schedule based on your information."

/-- `create_conversational_agent_node` (lines 129-154). -/
def create_conversational_agent_node (backend : BackendResult)
    (s : FarmAdvisorState) : FarmAdvisorState :=
  match backend with
  | Except.ok content =>
      { s with messages := s.messages ++ [mkAI content],
               active_agent := "human", iteration_count := 0 }
  | Except.error _ =>
      { s with messages := s.messages ++ [mkAI conversational_error_msg],
               active_agent := "human", iteration_count := 0 }

/-- The brace-span location of lines 172-176 and 221-225: the substring from
the first `\x7b` to the last `\x7d` when `json_start >= 0 and json_end > json_start`. -/
def find_json_span (content : String) : Option String :=
  let json_start := pyFind content lbrace
  let json_end := pyRFind content rbrace + 1
  if json_start ≥ 0 ∧ json_end > json_start then
    some (pySlice content json_start.toNat json_end.toNat)
  else none

/-- The `extracted_data` computed by lines 170-179: empty when the span is
absent or `json.loads` raises. -/
def extracted_of (parse : JsonParser) (content : String) : List (String × String) :=
  match find_json_span content with
  | some sp => (parse sp).getD []
  | none => []

/-- `create_data_extraction_agent_node` (lines 156-198). -/
def create_data_extraction_agent_node (parse : JsonParser)
    (backend : BackendResult) (s : FarmAdvisorState) : FarmAdvisorState :=
  match backend with
  | Except.ok content =>
      let extracted := extracted_of parse content
      let user_response :=
        if extracted.isEmpty then data_extraction_ack
        else data_extraction_ack ++ data_extraction_ack_more
      { s with messages := s.messages ++ [mkAI user_response],
               extracted_data := extracted,
               active_agent := "human", iteration_count := 0 }
  | Except.error _ =>
      { s with messages := s.messages ++ [mkAI data_extraction_error_msg],
               active_agent := "human", iteration_count := 0 }

/-- The `planning_data` of lines 219-226 (empty on span absence or parse failure). -/
def planning_payload (parse : JsonParser) (content : String) : List (String × String) :=
  match find_json_span content with
  | some sp => (parse sp).getD []
  | none => []

/-- The `user_response` of lines 228-236: on successful parse, the text around
the JSON (or a fixed message when that is empty); otherwise the raw content. -/
def planning_user_response (parse : JsonParser) (content : String) : String :=
  match find_json_span content with
  | some sp =>
      match parse sp with
      | some _ =>
          let json_start := (pyFind content lbrace).toNat
          let json_end := (pyRFind content rbrace + 1).toNat
          let ur := (pySliceTo content json_start).trim ++ (pySliceFrom content json_end).trim
          if ur == "" then planning_default_msg else ur
      | none => content
  | none => content

/-- `create_planning_agent_node` (lines 200-250). -/
def create_planning_agent_node (parse : JsonParser)
    (backend : BackendResult) (s : FarmAdvisorState) : FarmAdvisorState :=
  match backend with
  | Except.ok content =>
      { s with messages := s.messages ++ [mkAI (planning_user_response parse content)],
               planning_data := planning_payload parse content,
               active_agent := "human", iteration_count := 0 }
  | Except.error _ =>
      { s with messages := s.messages ++ [mkAI planning_error_msg],
               active_agent := "human", iteration_count := 0 }

/-- The bullet-line heuristic of lines 272-281. -/
def parse_recommendations (content : String) : List String :=
  (content.splitOn "\n").foldl
    (fun acc line =>
      let t := line.trim
      if t.startsWith "- " || t.startsWith "* " then acc ++ [t.drop 2] else acc)
    []

/-- `create_recommendation_agent_node` (lines 252-295). -/
def create_recommendation_agent_node (backend : BackendResult)
    (s : FarmAdvisorState) : FarmAdvisorState :=
  match backend with
  | Except.ok content =>
      { s with messages := s.messages ++ [mkAI content],
               recommendations := parse_recommendations content,
               active_agent := "human", iteration_count := 0 }
  | Except.error _ =>
      { s with messages := s.messages ++ [mkAI recommendation_error_msg],
               active_agent := "human", iteration_count := 0 }

/-- `create_supervisor_response_node` (lines 297-321). -/
def create_supervisor_response_node (backend : BackendResult)
    (s : FarmAdvisorState) : FarmAdvisorState :=
  match backend with
  | Except.ok content =>
      { s with messages := s.messages ++ [mkAI content],
               active_agent := "human", iteration_count := 0 }
  | Except.error _ =>
      { s with messages := s.messages ++ [mkAI supervisor_response_error_msg],
               active_agent := "human", iteration_count := 0 }

/-- `human_input_node` (lines 323-329). -/
def human_input_node (s : FarmAdvisorState) : FarmAdvisorState :=
  { s with active_agent := "supervisor", iteration_count := 0 }

/- ---------------- The compiled graph ---------------- -/

/-- `route_agent` (lines 331-336): `END` when the active agent is "human",
otherwise the name of the next node. -/
inductive RouteResult where
  | endRoute
  | toNode (name : String)
deriving DecidableEq, Repr

/-- `route_agent`. -/
def route_agent (s : FarmAdvisorState) : RouteResult :=
  if s.active_agent == "human" then RouteResult.endRoute
  else RouteResult.toNode s.active_agent

/-- The nodes of `create_farm_advisor_graph` plus the END sentinel. -/
inductive GNode where
  | supervisor
  | conversational_agent
  | data_extraction_agent
  | planning_agent
  | recommendation_agent
  | supervisor_response
  | human
  | endNode
deriving DecidableEq, Repr

/-- The conditional-edge dictionary of lines 355-367 (an unknown name would be
a LangGraph error; it is mapped to END here and is proved unreachable). -/
def nodeOfName (name : String) : GNode :=
  if name == "conversational_agent" then GNode.conversational_agent
  else if name == "data_extraction_agent" then GNode.data_extraction_agent
  else if name == "planning_agent" then GNode.planning_agent
  else if name == "recommendation_agent" then GNode.recommendation_agent
  else if name == "supervisor_response" then GNode.supervisor_response
  else if name == "human" then GNode.human
  else GNode.endNode

/-- The specialist (role) nodes: every node added by the graph other than
supervisor and human. -/
def specialist_nodes : List GNode :=
  [GNode.conversational_agent, GNode.data_extraction_agent, GNode.planning_agent,
   GNode.recommendation_agent, GNode.supervisor_response]

/-- The unconditional edges added by lines 370-373: each specialist node has a
single outgoing edge, to "human". -/
def added_edges : List (GNode × GNode) :=
  [(GNode.conversational_agent, GNode.human),
   (GNode.data_extraction_agent, GNode.human),
   (GNode.planning_agent, GNode.human),
   (GNode.recommendation_agent, GNode.human),
   (GNode.supervisor_response, GNode.human)]

/-- Execute one graph node. `e` is the backend outcome consumed by that node
(ignored by `human`, which makes no backend call). -/
def execNode (parse : JsonParser) (n : GNode) (e : BackendResult)
    (s : FarmAdvisorState) : FarmAdvisorState :=
  match n with
  | GNode.supervisor => create_supervisor_node e s
  | GNode.conversational_agent => create_conversational_agent_node e s
  | GNode.data_extraction_agent => create_data_extraction_agent_node parse e s
  | GNode.planning_agent => create_planning_agent_node parse e s
  | GNode.recommendation_agent => create_recommendation_agent_node e s
  | GNode.supervisor_response => create_supervisor_response_node e s
  | GNode.human => human_input_node s
  | GNode.endNode => s

/-- Successor of a node in the compiled graph, evaluated on the state the node
just produced: the supervisor's conditional edge uses `route_agent`; each
specialist follows its single edge to `human`; `human` has no outgoing edge, so
execution ends (the turn suspends back to the caller). -/
def nextNode (n : GNode) (s : FarmAdvisorState) : GNode :=
  match n with
  | GNode.supervisor =>
      match route_agent s with
      | RouteResult.endRoute => GNode.endNode
      | RouteResult.toNode name => nodeOfName name
  | GNode.conversational_agent => GNode.human
  | GNode.data_extraction_agent => GNode.human
  | GNode.planning_agent => GNode.human
  | GNode.recommendation_agent => GNode.human
  | GNode.supervisor_response => GNode.human
  | GNode.human => GNode.endNode
  | GNode.endNode => GNode.endNode

/-- Run the compiled graph: consume one backend event per executed node, follow
the edges, stop at END. Returns the final state and the trace of
(node, state-upon-entry) pairs. -/
def runGraph (parse : JsonParser) :
    List BackendResult → GNode → FarmAdvisorState →
      FarmAdvisorState × List (GNode × FarmAdvisorState)
  | _, GNode.endNode, s => (s, [])
  | [], _, s => (s, [])
  | e :: es, n, s =>
      let s2 := execNode parse n e s
      let r := runGraph parse es (nextNode n s2) s2
      (r.1, (n, s) :: r.2)

/- ---------------- run_farm_advisor and the long-term store ---------------- -/

/-- The global `InMemoryStore` of multi_agent_graph.py line 38, restricted to
the two namespaces the file uses: ("conversations", sid) ↦ "messages" and
("user_data", sid) ↦ "extracted_data". -/
structure MemStore where
  conversations : List (String × List Message)
  user_data : List (String × List (String × String))
deriving DecidableEq, Repr

/-- `memory_store.get(namespace, key)`. -/
def storeGet {α : Type} (l : List (String × α)) (k : String) : Option α :=
  (l.find? (fun p => p.1 == k)).map (fun p => p.2)

/-- `memory_store.put(namespace, key, value)` (overwrites the key). -/
def storePut {α : Type} (l : List (String × α)) (k : String) (v : α) :
    List (String × α) :=
  (l.filter (fun p => p.1 != k)) ++ [(k, v)]

/-- Message-list initialization of run_farm_advisor lines 422-428. -/
def initial_messages (user_input : Option String) (previous : List Message) :
    List Message :=
  match user_input with
  | some u => if previous.isEmpty then [mkHuman u] else previous ++ [mkHuman u]
  | none => previous

/-- The fixed apology of run_farm_advisor's own except branch (line 512). -/
def run_error_msg : String :=
  "I\x27m sorry, I encountered an error. Please try again."

/-- The state dict built by run_farm_advisor before invoking the graph
(lines 407-479): on resume it loads only the previous messages from the
"conversations" namespace and initializes `extracted_data` to the empty dict;
`fresh` stands for the `uuid.uuid4()` of a new session. -/
def initial_state (user_input : Option String) (session_id : Option String)
    (fresh : String) (store : MemStore) : FarmAdvisorState :=
  match session_id with
  | some sid =>
      let previous := (storeGet store.conversations sid).getD []
      { messages := initial_messages user_input previous,
        extracted_data := [], planning_data := [], recommendations := [],
        active_agent := "supervisor", session_id := sid, iteration_count := 0 }
  | none =>
      { messages := (match user_input with | some u => [mkHuman u] | none => []),
        extracted_data := [], planning_data := [], recommendations := [],
        active_agent := if user_input.isSome then "supervisor" else "human",
        session_id := fresh, iteration_count := 0 }

/-- What run_farm_advisor returns: the graph result, or (except branch,
lines 508-514) a dict holding only the messages with an apology appended and
the session id. -/
inductive RunOutcome where
  | ok (result : FarmAdvisorState)
  | fallback (messages : List Message) (session_id : String)
deriving DecidableEq, Repr

/-- `run_farm_advisor` (lines 384-514). `events` are the backend outcomes
consumed by the graph nodes in order; `graphRaises` selects the except branch
of the `graph.invoke` call. Note that the graph (and with it the
`InMemorySaver` checkpointer of line 379) is created afresh inside each call,
so only the explicit `memory_store` round-trip survives between calls. -/
def run_farm_advisor (parse : JsonParser) (events : List BackendResult)
    (graphRaises : Bool) (user_input session_id : Option String)
    (fresh : String) (store : MemStore) : RunOutcome × MemStore :=
  let sid := session_id.getD fresh
  let st := initial_state user_input session_id fresh store
  if graphRaises then
    (RunOutcome.fallback (st.messages ++ [mkAI run_error_msg]) sid, store)
  else
    let result0 := (runGraph parse events GNode.supervisor st).1
    let result := { result0 with session_id := sid }
    let store1 := { store with
      conversations := storePut store.conversations sid result.messages }
    let store2 :=
      if result.extracted_data.isEmpty then store1
      else { store1 with user_data := storePut store1.user_data sid result.extracted_data }
    (RunOutcome.ok result, store2)

/-- Projection used to state facts about a `RunOutcome` without binders. -/
def outcomeExtracted : RunOutcome → Option (List (String × String))
  | RunOutcome.ok r => some r.extracted_data
  | RunOutcome.fallback _ _ => none

/- ---------------- Persistence layer (repository.py) ---------------- -/

/-- A `Farmer` row. -/
structure Farmer where
  id : Nat
deriving DecidableEq, Repr

/-- A `Farm` row. `surface_area` is stored opaquely (no arithmetic is performed
on it by the functions modelled here). -/
structure Farm where
  id : Nat
  farmer_id : Nat
  location : String
  surface_area : Int
  soil_type : Option String
  current_plants : Option String
  weather_conditions : Option String
deriving DecidableEq, Repr

/-- The field payload passed to create_farm / update_farm /
save_farm_data_from_extraction. -/
structure FarmData where
  location : String
  surface_area : Int
  soil_type : Option String
  current_plants : Option String
  weather_conditions : Option String
deriving DecidableEq, Repr

/-- The database tables touched by the modelled operations, with the
auto-increment id counters. -/
structure DB where
  farmers : List Farmer
  farms : List Farm
  next_farmer_id : Nat
  next_farm_id : Nat
deriving DecidableEq, Repr

/-- `Repository.create_farmer` (repository.py lines 20-28). -/
def create_farmer (db : DB) : DB × Farmer :=
  let farmer : Farmer := { id := db.next_farmer_id }
  ({ db with farmers := db.farmers ++ [farmer], next_farmer_id := db.next_farmer_id + 1 },
   farmer)

/-- `Repository.create_farm` (lines 34-45). -/
def create_farm (db : DB) (farmer_id : Nat) (d : FarmData) : DB × Farm :=
  let farm : Farm :=
    { id := db.next_farm_id, farmer_id := farmer_id,
      location := d.location, surface_area := d.surface_area,
      soil_type := d.soil_type, current_plants := d.current_plants,
      weather_conditions := d.weather_conditions }
  ({ db with farms := db.farms ++ [farm], next_farm_id := db.next_farm_id + 1 }, farm)

/-- Overwrite a farm's mutable fields with the given payload (the `setattr`
loop of update_farm). -/
def setFields (f : Farm) (d : FarmData) : Farm :=
  { f with location := d.location, surface_area := d.surface_area,
           soil_type := d.soil_type, current_plants := d.current_plants,
           weather_conditions := d.weather_conditions }

/-- `Repository.update_farm` (lines 47-53), called with the five extraction
fields as kwargs: mutates the row with the given id, adds nothing. -/
def update_farm (db : DB) (farm_id : Nat) (d : FarmData) : DB :=
  { db with farms := db.farms.map (fun f => if f.id == farm_id then setFields f d else f) }

/-- `Repository.get_farms_by_farmer_id` (lines 58-59). -/
def get_farms_by_farmer_id (db : DB) (farmer_id : Nat) : List Farm :=
  db.farms.filter (fun f => f.farmer_id == farmer_id)

/-- `Repository.save_farm_data_from_extraction` (lines 133-157): update the
most recent (`existing_farms[-1]`) farm when the farmer already has one,
otherwise create a new row. -/
def save_farm_data_from_extraction (db : DB) (farmer_id : Nat) (d : FarmData) : DB :=
  match (get_farms_by_farmer_id db farmer_id).getLast? with
  | some farm => update_farm db farm.id d
  | none => (create_farm db farmer_id d).1

/-- The database effect of `save_extracted_data`
(data_extraction_agent.py lines 28-69): create a fresh farmer, then save the
extracted farm data for that farmer. -/
def save_extracted_data (db : DB) (d : FarmData) : DB :=
  let r := create_farmer db
  save_farm_data_from_extraction r.1 r.2.id d

/- ---------------- app.py fallback mode and module surfaces ---------------- -/

/-- Top-level names bound in src/src/config/model_config.py. The combined
single-role prompt (`COMBINED_PROMPT`, lines 154-204) is entirely commented
out and therefore not bound. -/
def model_config_defs : List String :=
  ["BASE_DIR", "OLLAMA_BASE_URL", "OLLAMA_MODEL", "TEMPERATURE", "MAX_TOKENS",
   "STREAMING", "MEMORY_DIR", "SUPERVISOR_PROMPT", "CONVERSATIONAL_AGENT_PROMPT",
   "DATA_EXTRACTION_AGENT_PROMPT", "RECOMMENDATION_AGENT_PROMPT",
   "PLANNING_AGENT_PROMPT"]

/-- Top-level names bound in src/src/graph/multi_agent_graph.py. -/
def multi_agent_graph_defs : List String :=
  ["logger", "memory_store", "FarmAdvisorState", "create_supervisor_node",
   "create_conversational_agent_node", "create_data_extraction_agent_node",
   "create_planning_agent_node", "create_recommendation_agent_node",
   "create_supervisor_response_node", "human_input_node", "route_agent",
   "create_farm_advisor_graph", "run_farm_advisor"]

/-- The names app.py line 6 imports from src.graph.multi_agent_graph. -/
def app_graph_imports : List String := ["create_multi_agent_graph", "create_simple_graph"]

/-- The first statement of `direct_chat_mode` (app.py lines 43-44) imports
`get_ollama_chat_completion` and `COMBINED_PROMPT`; importing a name that is
not bound in the module raises ImportError before any turn is handled. -/
def direct_chat_mode_start : Except String Unit :=
  if model_config_defs.contains "COMBINED_PROMPT" then Except.ok ()
  else Except.error "ImportError: cannot import name COMBINED_PROMPT"

theorem select_loop_eq_find (content : String) :
    ∀ l : List (String × String),
      select_loop content l =
        (match l.find? (fun p => pyIn (pyLower p.1) (pyLower content)) with
         | some p => p.2
         | none => "conversational_agent") := by
  intro l
  induction l with
  | nil => rfl
  | cons hd tl ih =>
      cases hmatch : pyIn (pyLower hd.1) (pyLower content) with
      | true =>
          simp [select_loop, List.find?, hmatch]
      | false =>
          simp [select_loop, List.find?, hmatch, ih]

/- ---------------- helper lemmas ---------------- -/

theorem supervisor_iteration (b : BackendResult) (s : FarmAdvisorState) :
    (create_supervisor_node b s).iteration_count = s.iteration_count + 1 := by
  simp only [create_supervisor_node]
  split
  · rfl
  · split
    · rfl
    · split
      · cases b <;> rfl
      · rfl

theorem supervisor_classifies (content : String) (s : FarmAdvisorState)
    (h10 : s.iteration_count + 1 ≤ 10) (hh : lastIsHuman s.messages = true) :
    create_supervisor_node (Except.ok content) s =
      { s with active_agent := select_agent content,
               iteration_count := s.iteration_count + 1 } := by
  have hnot : ¬ (s.iteration_count + 1 > 10) := by omega
  unfold lastIsHuman at hh
  simp only [create_supervisor_node, if_neg hnot]
  cases hm : s.messages.getLast? with
  | none => rw [hm] at hh; simp at hh
  | some m =>
      rw [hm] at hh
      simp at hh
      simp [hh]

theorem nodeOfName_ne_supervisor (name : String) :
    nodeOfName name ≠ GNode.supervisor := by
  unfold nodeOfName
  repeat' split
  all_goals decide

theorem select_agent_cases (c : String) :
    select_agent c = "conversational_agent" ∨ select_agent c = "data_extraction_agent" ∨
    select_agent c = "planning_agent" ∨ select_agent c = "recommendation_agent" ∨
    select_agent c = "supervisor_response" := by
  simp only [select_agent, agent_mapping, select_loop]
  split
  · exact Or.inl rfl
  · split
    · exact Or.inr (Or.inl rfl)
    · split
      · exact Or.inr (Or.inr (Or.inl rfl))
      · split
        · exact Or.inr (Or.inr (Or.inr (Or.inl rfl)))
        · split
          · exact Or.inr (Or.inr (Or.inr (Or.inr rfl)))
          · exact Or.inl rfl

theorem specialist_active_human (parse : JsonParser) (n : GNode)
    (hn : n ∈ specialist_nodes) (e : BackendResult) (s : FarmAdvisorState) :
    (execNode parse n e s).active_agent = "human" ∧
      (execNode parse n e s).iteration_count = 0 := by
  fin_cases hn <;> cases e <;>
    simp [execNode, create_conversational_agent_node, create_data_extraction_agent_node,
          create_planning_agent_node, create_recommendation_agent_node,
          create_supervisor_response_node]

theorem runGraph_count_invariant (parse : JsonParser) :
    ∀ (events : List BackendResult) (n : GNode) (s : FarmAdvisorState),
      (n = GNode.supervisor → s.iteration_count ≤ 10) →
      s.iteration_count ≤ 11 →
      (runGraph parse events n s).1.iteration_count ≤ 11 ∧
        ∀ p ∈ (runGraph parse events n s).2, p.2.iteration_count ≤ 11 := by
  intro events
  induction events with
  | nil =>
      intro n s _ h11
      cases n <;> simp [runGraph, h11]
  | cons e es ih =>
      intro n s hsup h11
      cases n with
      | endNode => simp [runGraph, h11]
      | supervisor =>
          have h10 := hsup rfl
          have hnext : nextNode GNode.supervisor (create_supervisor_node e s) ≠
              GNode.supervisor := by
            unfold nextNode
            cases route_agent (create_supervisor_node e s) with
            | endRoute => decide
            | toNode name => exact nodeOfName_ne_supervisor name
          have hcount := supervisor_iteration e s
          have hrec := ih (nextNode GNode.supervisor (create_supervisor_node e s))
            (create_supervisor_node e s)
            (fun hcontra => absurd hcontra hnext) (by omega)
          simp only [runGraph, execNode]
          refine ⟨hrec.1, ?_⟩
          intro p hp
          rcases List.mem_cons.mp hp with h | h
          · rw [h]; exact h11
          · exact hrec.2 p h
      | human =>
          have hrec := ih GNode.endNode (human_input_node s)
            (by intro h; simp at h) (by simp [human_input_node])
          simp only [runGraph, execNode]
          refine ⟨hrec.1, ?_⟩
          intro p hp
          rcases List.mem_cons.mp hp with h | h
          · rw [h]; exact h11
          · exact hrec.2 p h
      | conversational_agent =>
          have hz := (specialist_active_human parse GNode.conversational_agent
            (by simp [specialist_nodes]) e s).2
          have hrec := ih GNode.human (execNode parse GNode.conversational_agent e s)
            (by intro h; simp at h) (by omega)
          simp only [runGraph] at hrec ⊢
          refine ⟨hrec.1, ?_⟩
          intro p hp
          rcases List.mem_cons.mp hp with h | h
          · rw [h]; exact h11
          · exact hrec.2 p h
      | data_extraction_agent =>
          have hz := (specialist_active_human parse GNode.data_extraction_agent
            (by simp [specialist_nodes]) e s).2
          have hrec := ih GNode.human (execNode parse GNode.data_extraction_agent e s)
            (by intro h; simp at h) (by omega)
          simp only [runGraph] at hrec ⊢
          refine ⟨hrec.1, ?_⟩
          intro p hp
          rcases List.mem_cons.mp hp with h | h
          · rw [h]; exact h11
          · exact hrec.2 p h
      | planning_agent =>
          have hz := (specialist_active_human parse GNode.planning_agent
            (by simp [specialist_nodes]) e s).2
          have hrec := ih GNode.human (execNode parse GNode.planning_agent e s)
            (by intro h; simp at h) (by omega)
          simp only [runGraph] at hrec ⊢
          refine ⟨hrec.1, ?_⟩
          intro p hp
          rcases List.mem_cons.mp hp with h | h
          · rw [h]; exact h11
          · exact hrec.2 p h
      | recommendation_agent =>
          have hz := (specialist_active_human parse GNode.recommendation_agent
            (by simp [specialist_nodes]) e s).2
          have hrec := ih GNode.human (execNode parse GNode.recommendation_agent e s)
            (by intro h; simp at h) (by omega)
          simp only [runGraph] at hrec ⊢
          refine ⟨hrec.1, ?_⟩
          intro p hp
          rcases List.mem_cons.mp hp with h | h
          · rw [h]; exact h11
          · exact hrec.2 p h
      | supervisor_response =>
          have hz := (specialist_active_human parse GNode.supervisor_response
            (by simp [specialist_nodes]) e s).2
          have hrec := ih GNode.human (execNode parse GNode.supervisor_response e s)
            (by intro h; simp at h) (by omega)
          simp only [runGraph] at hrec ⊢
          refine ⟨hrec.1, ?_⟩
          intro p hp
          rcases List.mem_cons.mp hp with h | h
          · rw [h]; exact h11
          · exact hrec.2 p h

theorem route_agent_toNode (s : FarmAdvisorState) (h : s.active_agent ≠ "human") :
    route_agent s = RouteResult.toNode s.active_agent := by
  simp [route_agent, h]

theorem specialist_next (n : GNode) (hn : n ∈ specialist_nodes)
    (s : FarmAdvisorState) : nextNode n s = GNode.human := by
  fin_cases hn <;> rfl

/- ---------------- sample inputs for the witnesses ---------------- -/

/-- A parser that always fails (every span is malformed JSON). -/
def w_parse : JsonParser := fun _ => none

/-- Sample backend events: one classification, one generation, one ignored. -/
def w_events : List BackendResult :=
  [Except.ok "conversational", Except.ok "Hello, how can I help?", Except.ok "x"]

/-- A fresh-turn state whose last message is a human message. -/
def w_state : FarmAdvisorState :=
  { messages := [mkHuman "Hello"], extracted_data := [], planning_data := [],
    recommendations := [], active_agent := "supervisor", session_id := "s",
    iteration_count := 0 }

/-- The same state at the hop ceiling. -/
def w_state10 : FarmAdvisorState := { w_state with iteration_count := 10 }

/- ---------------- claim theorems ---------------- -/

/-- C1 (confirmed). The supervisor node increments `iteration_count` on every
invocation; once the incremented counter exceeds the ceiling of 10 it refuses
to dispatch, forcing `active_agent = "human"` with the appended apology,
regardless of the classifier outcome; starting a turn at `iteration_count = 0`,
for every sequence of backend/classifier outcomes, every state entering the
human node (and the final state when it is the human state) carries
`iteration_count ≤ 11 = ceiling + 1`; and `human_input_node` resets the counter
to 0 at the human boundary. -/
theorem C1_hop_ceiling (parse : JsonParser) (events : List BackendResult)
    (b : BackendResult) (s s0 : FarmAdvisorState)
    (h0 : s0.iteration_count = 0) :
    (create_supervisor_node b s).iteration_count = s.iteration_count + 1
    ∧ (s.iteration_count + 1 > 10 →
        (create_supervisor_node b s).active_agent = "human"
        ∧ (create_supervisor_node b s).messages
            = s.messages ++ [mkAI supervisor_overload_msg])
    ∧ (∀ p ∈ (runGraph parse events GNode.supervisor s0).2,
        p.1 = GNode.human → p.2.iteration_count ≤ 11)
    ∧ ((runGraph parse events GNode.supervisor s0).1.active_agent = "human" →
        (runGraph parse events GNode.supervisor s0).1.iteration_count ≤ 11)
    ∧ (human_input_node s).iteration_count = 0 := by
  have hinv := runGraph_count_invariant parse events GNode.supervisor s0
    (fun _ => by omega) (by omega)
  refine ⟨supervisor_iteration b s, ?_, ?_, ?_, rfl⟩
  · intro hgt
    simp [create_supervisor_node, if_pos hgt]
  · intro p hp _
    exact hinv.2 p hp
  · intro _
    exact hinv.1

theorem C1_hop_ceiling_witness :
    w_state.iteration_count = 0
    ∧ ((create_supervisor_node (Except.error "boom") w_state10).iteration_count
          = w_state10.iteration_count + 1
       ∧ (w_state10.iteration_count + 1 > 10 →
            (create_supervisor_node (Except.error "boom") w_state10).active_agent = "human"
            ∧ (create_supervisor_node (Except.error "boom") w_state10).messages
                = w_state10.messages ++ [mkAI supervisor_overload_msg])
       ∧ (∀ p ∈ (runGraph w_parse w_events GNode.supervisor w_state).2,
            p.1 = GNode.human → p.2.iteration_count ≤ 11)
       ∧ ((runGraph w_parse w_events GNode.supervisor w_state).1.active_agent = "human" →
            (runGraph w_parse w_events GNode.supervisor w_state).1.iteration_count ≤ 11)
       ∧ (human_input_node w_state10).iteration_count = 0) :=
  ⟨rfl, C1_hop_ceiling w_parse w_events (Except.error "boom") w_state10 w_state rfl⟩

/-- C2 (confirmed). In a turn whose history ends with a human message and whose
counter is below the ceiling, if the classifier answer selects role state `L`
then the graph visits exactly `supervisor`, the role state for `L`, and `human`
(so the selected role runs exactly once and no other role runs); every
specialist node sets `active_agent = "human"` on all paths; and each specialist
node has a single outgoing edge, to "human". -/
theorem C2_single_hop_routing (parse : JsonParser) (content : String)
    (e2 e3 : BackendResult) (s0 : FarmAdvisorState)
    (h10 : s0.iteration_count + 1 ≤ 10) (hh : lastIsHuman s0.messages = true) :
    ((runGraph parse [Except.ok content, e2, e3] GNode.supervisor s0).2.map Prod.fst
        = [GNode.supervisor, nodeOfName (select_agent content), GNode.human])
    ∧ nodeOfName (select_agent content) ∈ specialist_nodes
    ∧ (∀ n ∈ specialist_nodes, ∀ e s, (execNode parse n e s).active_agent = "human")
    ∧ (∀ n ∈ specialist_nodes,
        (added_edges.filter (fun p => p.1 == n)).map Prod.snd = [GNode.human]) := by
  refine ⟨?_, ?_, ?_, ?_⟩
  · have hs1 := supervisor_classifies content s0 h10 hh
    rcases select_agent_cases content with h | h | h | h | h <;>
      rw [h] at hs1 <;>
        simp [runGraph, execNode, nextNode, route_agent, nodeOfName, hs1, h]
  · rcases select_agent_cases content with h | h | h | h | h <;> rw [h] <;> decide
  · intro n hn e s
    exact (specialist_active_human parse n hn e s).1
  · intro n hn
    fin_cases hn <;> decide

theorem C2_single_hop_routing_witness :
    (w_state.iteration_count + 1 ≤ 10 ∧ lastIsHuman w_state.messages = true)
    ∧ (((runGraph w_parse [Except.ok "planning", Except.ok "plan text", Except.ok "x"]
            GNode.supervisor w_state).2.map Prod.fst
          = [GNode.supervisor, nodeOfName (select_agent "planning"), GNode.human])
       ∧ nodeOfName (select_agent "planning") ∈ specialist_nodes
       ∧ (∀ n ∈ specialist_nodes, ∀ e s, (execNode w_parse n e s).active_agent = "human")
       ∧ (∀ n ∈ specialist_nodes,
            (added_edges.filter (fun p => p.1 == n)).map Prod.snd = [GNode.human])) :=
  ⟨⟨by decide, by decide⟩,
   C2_single_hop_routing w_parse "planning" (Except.ok "plan text") (Except.ok "x")
     w_state (by decide) (by decide)⟩

/-- C3 counterexample. The claim's vocabulary token "direct_response" is not
what the code matches (the code's token is "respond_directly"): on the backend
answer "direct_response" the code falls back to the conversational default,
while the claimed matcher would select the direct-response route. -/
theorem C3_counterexample :
    select_agent "direct_response" = "conversational_agent"
    ∧ claim_select "direct_response" = "supervisor_response"
    ∧ select_agent "direct_response" ≠ claim_select "direct_response" := by
  decide

/-- C3 amended: the supervisor selects a route by case-insensitive substring
matching of the tokens conversational, data_extraction, planning,
recommendation, respond_directly (in this precedence order, the code's dict
insertion order) against the answer, taking the first match, and defaults to
the conversational route when none of these tokens occurs in the answer. -/
theorem C3_amended_label_matching (content : String) :
    select_agent content = amended_select content
    ∧ ((∀ p ∈ agent_mapping, pyIn (pyLower p.1) (pyLower content) = false) →
        select_agent content = "conversational_agent") := by
  constructor
  · show select_loop content agent_mapping = amended_select content
    rw [select_loop_eq_find content agent_mapping]
    rfl
  · intro hnone
    show select_loop content agent_mapping = "conversational_agent"
    rw [select_loop_eq_find content agent_mapping]
    have hfind : agent_mapping.find? (fun p => pyIn (pyLower p.1) (pyLower content)) = none := by
      rw [List.find?_eq_none]
      intro p hp
      simp [hnone p hp]
    rw [hfind]

theorem C3_amended_label_matching_witness :
    (∀ p ∈ agent_mapping, pyIn (pyLower p.1) (pyLower "hello there") = false)
    ∧ select_agent "hello there" = "conversational_agent" :=
  ⟨by decide, (C3_amended_label_matching "hello there").2 (by decide)⟩

/-- A turn-start state for the C5 scenario: last message is a human question,
counter at 0. -/
def c5_state : FarmAdvisorState :=
  { messages := [mkHuman "What crops grow near Tunis?"], extracted_data := [],
    planning_data := [], recommendations := [], active_agent := "supervisor",
    session_id := "s", iteration_count := 0 }

/-- C5 counterexample. When the classifier backend raises, the supervisor does
not default the label to conversational as claimed: the except branch appends
an apology and ends the turn at "human". -/
theorem C5_counterexample :
    (create_supervisor_node (Except.error "connection timeout") c5_state).active_agent
        = "human"
    ∧ (create_supervisor_node (Except.error "connection timeout") c5_state).active_agent
        ≠ "conversational_agent"
    ∧ (create_supervisor_node (Except.error "connection timeout") c5_state).messages
        = c5_state.messages ++ [mkAI supervisor_error_msg] := by
  decide

/-- C5 amended: a backend failure in the Intent Classifier is caught locally
and never propagated; the supervisor appends a fixed apology and sets
`active_agent = "human"`, ending the turn (the conversational default applies
only to successful answers matching no label, see C3). The result is
independent of the exception text. -/
theorem C5_amended_failure_to_human (e : String) (s : FarmAdvisorState)
    (h10 : s.iteration_count + 1 ≤ 10) (hh : lastIsHuman s.messages = true) :
    create_supervisor_node (Except.error e) s =
      { s with messages := s.messages ++ [mkAI supervisor_error_msg],
               active_agent := "human", iteration_count := s.iteration_count + 1 } := by
  have hnot : ¬ (s.iteration_count + 1 > 10) := by omega
  unfold lastIsHuman at hh
  simp only [create_supervisor_node, if_neg hnot]
  cases hm : s.messages.getLast? with
  | none => rw [hm] at hh; simp at hh
  | some m =>
      rw [hm] at hh
      simp at hh
      simp [hh]

theorem C5_amended_failure_to_human_witness :
    (c5_state.iteration_count + 1 ≤ 10 ∧ lastIsHuman c5_state.messages = true)
    ∧ create_supervisor_node (Except.error "boom") c5_state =
      { c5_state with messages := c5_state.messages ++ [mkAI supervisor_error_msg],
                      active_agent := "human",
                      iteration_count := c5_state.iteration_count + 1 } :=
  ⟨⟨by decide, by decide⟩,
   C5_amended_failure_to_human "boom" c5_state (by decide) (by decide)⟩

/-- C10 (confirmed). When the message history is empty, or its last message is
not a human message, the supervisor ends the turn at "human" without consulting
the classifier backend: the result is independent of the backend outcome, and
`route_agent` maps it to END. -/
theorem C10_supervisor_guard (b b2 : BackendResult) (s : FarmAdvisorState)
    (h : s.messages = [] ∨ lastIsHuman s.messages = false) :
    (create_supervisor_node b s).active_agent = "human"
    ∧ create_supervisor_node b s = create_supervisor_node b2 s
    ∧ route_agent (create_supervisor_node b s) = RouteResult.endRoute := by
  have hguard : ∀ bb : BackendResult, create_supervisor_node bb s =
      (if s.iteration_count + 1 > 10 then
        { s with messages := s.messages ++ [mkAI supervisor_overload_msg],
                 active_agent := "human", iteration_count := s.iteration_count + 1 }
       else { s with active_agent := "human", iteration_count := s.iteration_count + 1 }) := by
    intro bb
    simp only [create_supervisor_node]
    split
    · rfl
    · rcases h with hnil | hlast
      · simp [hnil]
      · cases hm : s.messages.getLast? with
        | none => rfl
        | some m =>
            unfold lastIsHuman at hlast
            rw [hm] at hlast
            simp at hlast
            simp [hlast]
  refine ⟨?_, ?_, ?_⟩
  · rw [hguard b]; split <;> rfl
  · rw [hguard b, hguard b2]
  · rw [hguard b]; split <;> simp [route_agent]

/-- An initial state with no messages at all. -/
def c10_state : FarmAdvisorState :=
  { messages := [], extracted_data := [], planning_data := [], recommendations := [],
    active_agent := "supervisor", session_id := "s", iteration_count := 0 }

theorem C10_supervisor_guard_witness :
    (c10_state.messages = [] ∨ lastIsHuman c10_state.messages = false)
    ∧ ((create_supervisor_node (Except.ok "planning") c10_state).active_agent = "human"
       ∧ create_supervisor_node (Except.ok "planning") c10_state
           = create_supervisor_node (Except.error "boom") c10_state
       ∧ route_agent (create_supervisor_node (Except.ok "planning") c10_state)
           = RouteResult.endRoute) :=
  ⟨Or.inl rfl,
   C10_supervisor_guard (Except.ok "planning") (Except.error "boom") c10_state (Or.inl rfl)⟩

/-- C6 (confirmed). For every generated text whose brace span (first `\x7b` to
last `\x7d`) is absent or fails to parse as JSON, the failure is swallowed:
`extracted_data` for the turn is the empty mapping and the appended assistant
message is the fixed generic acknowledgment, which contains no brace (so never
the raw or broken JSON). -/
theorem C6_extraction_parse_fallback (parse : JsonParser) (content : String)
    (s : FarmAdvisorState)
    (h : (find_json_span content).bind parse = none) :
    (create_data_extraction_agent_node parse (Except.ok content) s).extracted_data = []
    ∧ (create_data_extraction_agent_node parse (Except.ok content) s).messages
        = s.messages ++ [mkAI data_extraction_ack]
    ∧ pyIn (String.mk [lbrace]) data_extraction_ack = false
    ∧ pyIn (String.mk [rbrace]) data_extraction_ack = false := by
  have hext : extracted_of parse content = [] := by
    unfold extracted_of
    cases hsp : find_json_span content with
    | none => rfl
    | some sp =>
        rw [hsp] at h
        simp only [Option.bind] at h
        simp [h]
  refine ⟨?_, ?_, by decide, by decide⟩
  · simp [create_data_extraction_agent_node, hext]
  · simp [create_data_extraction_agent_node, hext]

theorem C6_extraction_parse_fallback_witness :
    ((find_json_span "The farm details were unclear.").bind w_parse = none)
    ∧ ((create_data_extraction_agent_node w_parse
          (Except.ok "The farm details were unclear.") w_state).extracted_data = []
       ∧ (create_data_extraction_agent_node w_parse
            (Except.ok "The farm details were unclear.") w_state).messages
          = w_state.messages ++ [mkAI data_extraction_ack]
       ∧ pyIn (String.mk [lbrace]) data_extraction_ack = false
       ∧ pyIn (String.mk [rbrace]) data_extraction_ack = false) :=
  ⟨by decide,
   C6_extraction_parse_fallback w_parse "The farm details were unclear." w_state (by decide)⟩

theorem update_keeps_farmer (f : Farm) (i : Nat) (d : FarmData) :
    (if f.id == i then setFields f d else f).farmer_id = f.farmer_id := by
  split <;> rfl

theorem get_farms_update (db : DB) (fid i : Nat) (d : FarmData) :
    get_farms_by_farmer_id (update_farm db i d) fid
      = (get_farms_by_farmer_id db fid).map
          (fun f => if f.id == i then setFields f d else f) := by
  unfold get_farms_by_farmer_id update_farm
  rw [List.filter_map]
  congr 1
  apply List.filter_congr
  intro f _
  show ((if f.id == i then setFields f d else f).farmer_id == fid) = (f.farmer_id == fid)
  rw [update_keeps_farmer]

theorem save_farm_update_case (db : DB) (fid : Nat) (d : FarmData) (farm : Farm)
    (hfarm : (get_farms_by_farmer_id db fid).getLast? = some farm) :
    save_farm_data_from_extraction db fid d = update_farm db farm.id d := by
  unfold save_farm_data_from_extraction
  rw [hfarm]

theorem save_farm_nonempty (db : DB) (fid : Nat) (d : FarmData) :
    get_farms_by_farmer_id (save_farm_data_from_extraction db fid d) fid ≠ [] := by
  cases hlast : (get_farms_by_farmer_id db fid).getLast? with
  | some farm =>
      rw [save_farm_update_case db fid d farm hlast, get_farms_update]
      intro hcontra
      rw [List.map_eq_nil_iff] at hcontra
      rw [hcontra] at hlast
      simp at hlast
  | none =>
      have hsave : save_farm_data_from_extraction db fid d = (create_farm db fid d).1 := by
        unfold save_farm_data_from_extraction
        rw [hlast]
      have hempty : get_farms_by_farmer_id db fid = [] := by
        rwa [List.getLast?_eq_none_iff] at hlast
      rw [hsave]
      unfold get_farms_by_farmer_id create_farm
      unfold get_farms_by_farmer_id at hempty
      simp [List.filter_append, hempty]

/-- C7 (confirmed). One successful extraction = exactly one Farm row created or
updated: when the farmer already has farms, `save_farm_data_from_extraction`
overwrites the fields of the most recent one (`existing_farms[-1]`) and
creates no row (same row count, same row ids); a row is created only when the
farmer has none; hence a repeated extraction for the same farmer never grows
the Farm table; and `save_extracted_data` (which makes a fresh farmer per
call) creates exactly one row per successful call. -/
theorem C7_farm_persistence (db : DB) (fid : Nat) (d d2 : FarmData) :
    (∀ farm, (get_farms_by_farmer_id db fid).getLast? = some farm →
        save_farm_data_from_extraction db fid d = update_farm db farm.id d
        ∧ (save_farm_data_from_extraction db fid d).farms.length = db.farms.length
        ∧ (save_farm_data_from_extraction db fid d).farms.map Farm.id
            = db.farms.map Farm.id
        ∧ ∀ g ∈ (save_farm_data_from_extraction db fid d).farms, g.id = farm.id →
            g.location = d.location ∧ g.surface_area = d.surface_area
            ∧ g.soil_type = d.soil_type ∧ g.current_plants = d.current_plants
            ∧ g.weather_conditions = d.weather_conditions)
    ∧ (get_farms_by_farmer_id db fid = [] →
        (save_farm_data_from_extraction db fid d).farms.length = db.farms.length + 1)
    ∧ (save_farm_data_from_extraction
          (save_farm_data_from_extraction db fid d) fid d2).farms.length
        = (save_farm_data_from_extraction db fid d).farms.length
    ∧ ((∀ f ∈ db.farms, f.farmer_id ≠ db.next_farmer_id) →
        (save_extracted_data db d).farms.length = db.farms.length + 1) := by
  refine ⟨?_, ?_, ?_, ?_⟩
  · intro farm hfarm
    have hsave := save_farm_update_case db fid d farm hfarm
    refine ⟨hsave, ?_, ?_, ?_⟩
    · rw [hsave]
      unfold update_farm
      simp
    · rw [hsave]
      unfold update_farm
      simp only [List.map_map]
      apply List.map_congr_left
      intro f _
      simp only [Function.comp]
      split <;> rfl
    · intro g hg hid
      rw [hsave] at hg
      unfold update_farm at hg
      simp only [List.mem_map] at hg
      obtain ⟨f, _, hfg⟩ := hg
      cases hcase : f.id == farm.id with
      | true =>
          rw [hcase] at hfg
          simp at hfg
          subst hfg
          exact ⟨rfl, rfl, rfl, rfl, rfl⟩
      | false =>
          rw [hcase] at hfg
          simp at hfg
          subst hfg
          rw [hid] at hcase
          simp at hcase
  · intro hempty
    have hsave : save_farm_data_from_extraction db fid d = (create_farm db fid d).1 := by
      unfold save_farm_data_from_extraction
      rw [hempty]
      rfl
    rw [hsave]
    unfold create_farm
    simp
  · have hne := save_farm_nonempty db fid d
    obtain ⟨farm2, hfarm2⟩ :
        ∃ farm2,
          (get_farms_by_farmer_id (save_farm_data_from_extraction db fid d) fid).getLast?
            = some farm2 := by
      cases h2 : (get_farms_by_farmer_id (save_farm_data_from_extraction db fid d) fid).getLast? with
      | some f2 => exact ⟨f2, rfl⟩
      | none => exact absurd (List.getLast?_eq_none_iff.mp h2) hne
    rw [save_farm_update_case _ fid d2 farm2 hfarm2]
    unfold update_farm
    simp
  · intro hfresh
    show (save_farm_data_from_extraction
        { db with farmers := db.farmers ++ [{ id := db.next_farmer_id }],
                  next_farmer_id := db.next_farmer_id + 1 }
        db.next_farmer_id d).farms.length = db.farms.length + 1
    have hempty : get_farms_by_farmer_id
        { db with farmers := db.farmers ++ [{ id := db.next_farmer_id }],
                  next_farmer_id := db.next_farmer_id + 1 }
        db.next_farmer_id = [] := by
      unfold get_farms_by_farmer_id
      rw [List.filter_eq_nil_iff]
      intro f hf
      simp [hfresh f hf]
    have hsave := hempty
    unfold save_farm_data_from_extraction
    rw [hempty]
    unfold create_farm
    simp

/-- A one-farm database for the C7 witness: farmer 7 already owns farm 1. -/
def c7_farm : Farm :=
  { id := 1, farmer_id := 7, location := "Tunis", surface_area := 5,
    soil_type := none, current_plants := none, weather_conditions := none }

/-- The database holding `c7_farm`. -/
def c7_db : DB :=
  { farmers := [{ id := 7 }], farms := [c7_farm], next_farmer_id := 8, next_farm_id := 2 }

/-- Extraction payload for the C7 witness. -/
def c7_data : FarmData :=
  { location := "Medenine", surface_area := 15, soil_type := some "sandy",
    current_plants := some "mangoes", weather_conditions := none }

theorem C7_farm_persistence_witness :
    ((get_farms_by_farmer_id c7_db 7).getLast? = some c7_farm
      ∧ (∀ f ∈ c7_db.farms, f.farmer_id ≠ c7_db.next_farmer_id))
    ∧ (save_farm_data_from_extraction c7_db 7 c7_data).farms.length = c7_db.farms.length
    ∧ (save_farm_data_from_extraction
          (save_farm_data_from_extraction c7_db 7 c7_data) 7 c7_data).farms.length
        = (save_farm_data_from_extraction c7_db 7 c7_data).farms.length
    ∧ (save_extracted_data c7_db c7_data).farms.length = c7_db.farms.length + 1 :=
  ⟨⟨by decide, by decide⟩,
   ((C7_farm_persistence c7_db 7 c7_data c7_data).1 c7_farm (by decide)).2.1,
   (C7_farm_persistence c7_db 7 c7_data c7_data).2.2.1,
   (C7_farm_persistence c7_db 7 c7_data c7_data).2.2.2 (by decide)⟩

/-- C8 (confirmed). No exception crosses the dispatch boundary: every
specialist node converts a raised exception into its fixed, complete apology
sentence appended to the message history (the result is a constant independent
of the exception text, so no raw trace can appear), and `run_farm_advisor`
converts a graph-execution failure into the initial message history with a
fixed apology appended, returned together with the session id. -/
theorem C8_exception_containment (parse : JsonParser) (e : String)
    (s : FarmAdvisorState) (events : List BackendResult)
    (user_input session_id : Option String) (fresh : String) (store : MemStore) :
    create_conversational_agent_node (Except.error e) s
      = { s with messages := s.messages ++ [mkAI conversational_error_msg],
                 active_agent := "human", iteration_count := 0 }
    ∧ create_data_extraction_agent_node parse (Except.error e) s
      = { s with messages := s.messages ++ [mkAI data_extraction_error_msg],
                 active_agent := "human", iteration_count := 0 }
    ∧ create_planning_agent_node parse (Except.error e) s
      = { s with messages := s.messages ++ [mkAI planning_error_msg],
                 active_agent := "human", iteration_count := 0 }
    ∧ create_recommendation_agent_node (Except.error e) s
      = { s with messages := s.messages ++ [mkAI recommendation_error_msg],
                 active_agent := "human", iteration_count := 0 }
    ∧ create_supervisor_response_node (Except.error e) s
      = { s with messages := s.messages ++ [mkAI supervisor_response_error_msg],
                 active_agent := "human", iteration_count := 0 }
    ∧ run_farm_advisor parse events true user_input session_id fresh store
      = (RunOutcome.fallback
          ((initial_state user_input session_id fresh store).messages
            ++ [mkAI run_error_msg])
          (session_id.getD fresh), store) :=
  ⟨rfl, rfl, rfl, rfl, rfl, rfl⟩

/-- C9 is a code bug: `direct_chat_mode` (app.py) imports `COMBINED_PROMPT`
from src.config.model_config, but that constant is commented out there, so the
degraded single-role mode raises ImportError instead of handling turns with the
combined prompt; in addition app.py line 6 imports names that
multi_agent_graph.py does not define, so the module cannot even load. -/
theorem C9_fallback_broken :
    model_config_defs.contains "COMBINED_PROMPT" = false
    ∧ direct_chat_mode_start
        = Except.error "ImportError: cannot import name COMBINED_PROMPT"
    ∧ app_graph_imports.all (fun n => multi_agent_graph_defs.contains n) = false :=
  ⟨by decide, rfl, by decide⟩

/- ---------------- C4 two-turn scenario ---------------- -/

/-- Empty long-term store at process start. -/
def c4_store0 : MemStore := { conversations := [], user_data := [] }

/-- The JSON object emitted by the extraction backend in turn 1. -/
def c4_json : String := "\x7b\x22location\x22: \x22Medenine\x22\x7d"

/-- A parser that decodes exactly `c4_json` (and fails on anything else). -/
def c4_parse : JsonParser :=
  fun sp => if sp == c4_json then some [("location", "Medenine")] else none

/-- The extraction backend output of turn 1: prose wrapped around the JSON. -/
def c4_llm_out : String := "Extracted: " ++ c4_json

/-- Turn 1 of session "s1": the classifier routes to data_extraction and the
extraction succeeds. -/
def c4_turn1 : RunOutcome × MemStore :=
  run_farm_advisor c4_parse
    [Except.ok "data_extraction", Except.ok c4_llm_out, Except.ok "x"]
    false
    (some "I have a 15 hectare farm in Medenine with sandy soil, I want to plant mangoes")
    (some "s1") "unused" c4_store0

/-- Turn 2 resumes session "s1": the classifier routes to recommendation. -/
def c4_turn2 : RunOutcome × MemStore :=
  run_farm_advisor c4_parse
    [Except.ok "recommendation", Except.ok "Here are my recommendations for your farm.",
     Except.ok "x"]
    false (some "give me recommendations") (some "s1") "unused" c4_turn1.2

/-- C4 fails on the code (code bug): turn 1 extracts location=Medenine and the
value is even written to the long-term store under ("user_data", "s1"), but
`run_farm_advisor` re-initializes `extracted_data` to the empty dict on every
call and never reads that entry back (and its graph/checkpointer are created
afresh per call), so the state turn 2 starts from — and hence what the
recommendation role can see — has an empty `extracted_data`, and turn 2 ends
with `extracted_data = []` instead of carrying the field over. -/
theorem C4_extracted_data_not_carried :
    outcomeExtracted c4_turn1.1 = some [("location", "Medenine")]
    ∧ storeGet c4_turn1.2.user_data "s1" = some [("location", "Medenine")]
    ∧ (initial_state (some "give me recommendations") (some "s1") "unused"
        c4_turn1.2).extracted_data = []
    ∧ outcomeExtracted c4_turn2.1 = some [] := by
  decide

end FarmAdvisor
